import Mathlib

/-!
Verification of the remote bridging client in `remote_client.py`
(`RemoteMCPClient`): a process bridging a local line-oriented channel
(stdin/stdout) to a remote SSE MCP server.

The embedding is shallow: JSON values decoded by Python's `json.loads` are
modelled by the inductive `Json`; Python's `in` operator, subscripting,
item assignment and truthiness on such values are modelled by executable
functions that return `Except String _` where the Python operation raises
`TypeError`/`KeyError` (only `json.JSONDecodeError` is caught by the inner
handler in `listen_sse`, so those other exceptions escape to the outer
handler).  I/O effects are modelled as explicit traces: `stdout` is the
list of lines printed to the local output channel, `stderr` the list of
diagnostic records printed to the diagnostic channel, and `sent` the list
of bodies handed to the HTTP transport.  The network and `json.loads` are
oracles: each SSE event carries the parse result of its payload, and each
outbound call carries its transport outcome.
-/

set_option autoImplicit false

namespace RemoteClient

/-- Values decodable from JSON by Python's `json.loads`: `None`, `bool`,
numbers (modelled as `Int`; no claim depends on float behaviour), `str`,
`list` and `dict` (modelled as an association list in insertion order;
dicts produced by `json.loads` have pairwise distinct keys). -/
inductive Json where
  | null : Json
  | bool : Bool → Json
  | num : Int → Json
  | str : String → Json
  | arr : List Json → Json
  | obj : List (String × Json) → Json

/-- Python truthiness (`if x:`) of a JSON-decoded value: `None`, `False`,
`0`, `""`, `[]` and `{}` are falsy, everything else truthy. -/
def truthy : Json → Bool
  | .null => false
  | .bool b => b
  | .num n => n != 0
  | .str s => s ≠ ""
  | .arr l => !l.isEmpty
  | .obj l => !l.isEmpty

/-- First binding of key `k` in an association list (Python dicts decoded
from JSON have unique keys, so first = only). -/
def lookupField (l : List (String × Json)) (k : String) : Option Json :=
  (l.find? (fun kv => kv.1 = k)).map (·.2)

/-- Membership of key `k` in an association list. -/
def hasKey (l : List (String × Json)) (k : String) : Bool :=
  l.any (fun kv => kv.1 = k)

/-- Python `d[k] = v` on a dict: overwrite the value in place if the key
exists, otherwise append the new binding. -/
def setField (l : List (String × Json)) (k : String) (v : Json) :
    List (String × Json) :=
  match l with
  | [] => [(k, v)]
  | (k', v') :: rest =>
      if k' = k then (k, v) :: rest else (k', v') :: setField rest k v

/-- Is `pat` a prefix of `s` (as character lists)? -/
def startsWithChars : List Char → List Char → Bool
  | [], _ => true
  | _ :: _, [] => false
  | a :: as, b :: bs => a = b && startsWithChars as bs

/-- Does `pat` occur as a contiguous run inside `s`? -/
def charsContain : List Char → List Char → Bool
  | pat, [] => pat.isEmpty
  | pat, c :: rest => startsWithChars pat (c :: rest) || charsContain pat rest

/-- Does the string `pat` occur as a substring of `s`?  (Python `pat in s`
for strings; the empty pattern occurs in every string.) -/
def strContains (s pat : String) : Bool :=
  charsContain pat.toList s.toList

/-- Python `k in data` where `k` is a `str` and `data` a JSON-decoded
value: key membership for dicts, element equality for lists (a `str`
needle compares equal only to equal `str` elements among JSON-decodable
values), substring test for strings, and `TypeError` for `None`, `bool`
and numbers, which are not iterable. -/
def pyContains (data : Json) (k : String) : Except String Bool :=
  match data with
  | .obj l => .ok (hasKey l k)
  | .arr l => .ok (l.any (fun j => match j with | .str s => s = k | _ => false))
  | .str s => .ok (strContains s k)
  | .null => .error "argument of type 'NoneType' is not iterable"
  | .bool _ => .error "argument of type 'bool' is not iterable"
  | .num _ => .error "argument of type 'int' is not iterable"

/-- Python `data[k]` where `k` is a `str`: dict lookup (raising `KeyError`
when absent), `TypeError` on every other JSON-decoded value. -/
def pyGetItem (data : Json) (k : String) : Except String Json :=
  match data with
  | .obj l =>
      match lookupField l k with
      | some v => .ok v
      | none => .error ("KeyError: " ++ k)
  | .str _ => .error "string indices must be integers"
  | .arr _ => .error "list indices must be integers or slices, not str"
  | .null => .error "'NoneType' object is not subscriptable"
  | .bool _ => .error "'bool' object is not subscriptable"
  | .num _ => .error "'int' object is not subscriptable"

/-- Python `data[k] = v`: in-place update for dicts, `TypeError` for every
other JSON-decoded value (`message["sessionId"] = ...` in
`send_request`). -/
def pySetItem (data : Json) (k : String) (v : Json) : Except String Json :=
  match data with
  | .obj l => .ok (.obj (setField l k v))
  | .str _ => .error "'str' object does not support item assignment"
  | .arr _ => .error "list indices must be integers or slices, not str"
  | .null => .error "'NoneType' object does not support item assignment"
  | .bool _ => .error "'bool' object does not support item assignment"
  | .num _ => .error "'int' object does not support item assignment"

/-- One diagnostic record: the line `json.dumps({"error": msg})` printed
(flushed) on stderr.  Modelled structurally to keep the message
inspectable. -/
structure Diag where
  error : String
  deriving Repr, DecidableEq

/-- Initial value of `self.session_id` set in `RemoteMCPClient.__init__`
(line 22): Python `None`. -/
def initSessionId : Json := Json.null

/-- Outcome of the `httpx` POST in `send_request`, supplied by the network
oracle: a 2xx response carrying a body (`respBody` is never read by the
client), a non-2xx response (`raise_for_status` raises with message
`emsg`), or a connection error raised by `client.post` itself. -/
inductive NetResult where
  | ok (respBody : String) : NetResult
  | httpError (emsg : String) : NetResult
  | connError (emsg : String) : NetResult
  deriving Repr, DecidableEq

/-- Did the outbound call fail at the transport layer? -/
def NetResult.isFailure : NetResult → Bool
  | .ok _ => false
  | .httpError _ => true
  | .connError _ => true

/-- Effects of one `send_request` call: `sent` is the body handed to the
HTTP transport (`none` if an exception fired before the POST), `stderr`
the diagnostic records emitted. -/
structure SendResult where
  sent : Option Json
  stderr : List Diag

/-- The first statement of `send_request`'s `try` block (lines 27–28):
`if self.session_id: message["sessionId"] = self.session_id`.  Note the
condition is Python truthiness of the stored value, and the assignment
raises `TypeError` when `message` is not a dict. -/
def injectSession (sid message : Json) : Except String Json :=
  if truthy sid then pySetItem message "sessionId" sid else .ok message

/-- RemoteMCPClient.send_request (lines 24–37): inject the session id if
truthy, POST the message to `<url>/message`, `raise_for_status`; any
exception is caught and printed as one diagnostic record.  The function
returns `None` in Python; here the effect trace is returned. -/
def send_request (sid message : Json) (net : NetResult) : SendResult :=
  match injectSession sid message with
  | .error e => { sent := none, stderr := [⟨e⟩] }
  | .ok m =>
      match net with
      | .ok _ => { sent := some m, stderr := [] }
      | .httpError e => { sent := some m, stderr := [⟨e⟩] }
      | .connError e => { sent := some m, stderr := [⟨e⟩] }

/-- One inbound SSE event: `kind` is `event.event` (defaulting to
`"message"` for ordinary events), `data` is `event.data`, the raw payload
text, and `parsed` abstracts `json.loads data` — `none` when the payload
is not valid JSON (`json.JSONDecodeError`), `some j` when it decodes to
`j`. -/
structure SSEEvent where
  kind : String
  data : String
  parsed : Option Json

/-- The session-announcement block of `listen_sse` (lines 48–55) run on
one event with non-empty payload, starting from session id `sid`: for a
`"session"` event, `json.loads` the payload (`JSONDecodeError` is caught
by the inner handler: `pass`), then `if "sessionId" in data:
self.session_id = data["sessionId"]`.  The `in` test and the
subscripting can raise `TypeError` on non-dict values, which the inner
handler does not catch; that exception is returned as `.error`. -/
def sessionStep (sid : Json) (ev : SSEEvent) : Except String Json :=
  if ev.kind = "session" then
    match ev.parsed with
    | none => .ok sid
    | some data =>
        match pyContains data "sessionId" with
        | .error e => .error e
        | .ok true => pyGetItem data "sessionId"
        | .ok false => .ok sid
  else .ok sid

/-- Result of running the listener loop: lines printed to stdout, the
diagnostic records, and the final value of `self.session_id`. -/
structure ListenResult where
  stdout : List String
  stderr : List Diag
  sessionId : Json

/-- The `async for` loop of `RemoteMCPClient.listen_sse` (lines 42–57)
over the events delivered by the stream: skip events with empty payload
(`if event.data:`), otherwise print the payload verbatim to stdout
(flushed) and run the session-announcement block.  An exception escaping
that block is caught by the outer handler (line 56), which prints one
`SSE connection error` diagnostic and ends the loop — events after the
faulting one are never consumed. -/
def listen_sse (sid : Json) : List SSEEvent → ListenResult
  | [] => { stdout := [], stderr := [], sessionId := sid }
  | ev :: rest =>
      if ev.data = "" then listen_sse sid rest
      else
        match sessionStep sid ev with
        | .ok sid' =>
            let r := listen_sse sid' rest
            { stdout := ev.data :: r.stdout, stderr := r.stderr,
              sessionId := r.sessionId }
        | .error e =>
            { stdout := [ev.data],
              stderr := [⟨"SSE connection error: " ++ e⟩],
              sessionId := sid }

/-- Does the listener loop process the whole event list without an
exception escaping the session-announcement block?  (When it does not,
the stream is torn down at the faulting event and later events never
arrive.) -/
def noListenFault (sid : Json) : List SSEEvent → Bool
  | [] => true
  | ev :: rest =>
      if ev.data = "" then noListenFault sid rest
      else
        match sessionStep sid ev with
        | .ok sid' => noListenFault sid' rest
        | .error _ => false

/-- One line read from stdin by `read_stdin`, as seen after
`json.loads(line.strip())`: `malformed e` when parsing raises
`json.JSONDecodeError` with message `e`, `msg m net` when it decodes to
`m` and the subsequent `send_request` gets transport outcome `net`.  The
list of lines ends at EOF (`if not line: break`). -/
inductive StdinLine where
  | malformed (emsg : String) : StdinLine
  | msg (m : Json) (net : NetResult) : StdinLine

/-- Result of running the forwarder loop: bodies handed to the HTTP
transport in order (each list element is one POST attempt — a dropped
request simply never reappears), diagnostic records, and lines printed to
the local output channel (`read_stdin` and `send_request` contain no
stdout write, so this trace records that none is produced). -/
structure ForwardResult where
  sent : List Json
  stderr : List Diag
  stdout : List String

/-- The `while True` loop of `RemoteMCPClient.read_stdin` (lines 59–77)
with `self.session_id = sid` (the forwarder never writes the session
cell; `sid` is the value the listener has most recently stored):
a `json.JSONDecodeError` prints one `Invalid JSON` diagnostic and
continues; otherwise the message is passed to `send_request`, which
catches all its own exceptions, so the loop proceeds to the next line.
(The final `except Exception: ... break` guards only environmental
failures of `run_in_executor`/`readline`, which have no counterpart
here.) -/
def read_stdin (sid : Json) : List StdinLine → ForwardResult
  | [] => { sent := [], stderr := [], stdout := [] }
  | .malformed e :: rest =>
      let r := read_stdin sid rest
      { sent := r.sent, stderr := ⟨"Invalid JSON: " ++ e⟩ :: r.stderr,
        stdout := r.stdout }
  | .msg m net :: rest =>
      let s := send_request sid m net
      let r := read_stdin sid rest
      { sent := s.sent.toList ++ r.sent, stderr := s.stderr ++ r.stderr,
        stdout := r.stdout }

/-- Outcome of `asyncio.run(main())` as observed by the `__main__` guard
(lines 97–104): normal return, `KeyboardInterrupt`, or any other uncaught
exception with message `e`. -/
inductive RunOutcome where
  | normal : RunOutcome
  | interrupt : RunOutcome
  | fault (emsg : String) : RunOutcome

/-- The `if __name__ == "__main__":` block (lines 97–104): exit code and
diagnostic records of the process.  `KeyboardInterrupt` is passed over
silently (implicit exit code 0); any other exception prints one
diagnostic record and exits with code 1; normal return exits 0. -/
def mainEntry : RunOutcome → Nat × List Diag
  | .normal => (0, [])
  | .interrupt => (0, [])
  | .fault e => (1, [⟨e⟩])

/-! Helper lemmas about the association-list operations and the loops. -/

theorem lookupField_setField (l : List (String × Json)) (k : String)
    (v : Json) : lookupField (setField l k v) k = some v := by
  induction l with
  | nil => simp [setField, lookupField, List.find?]
  | cons kv rest ih =>
      obtain ⟨k', v'⟩ := kv
      by_cases h : k' = k
      · simp [setField, h, lookupField, List.find?]
      · simpa [setField, h, lookupField, List.find?] using ih

theorem hasKey_eq_isSome (l : List (String × Json)) (k : String) :
    hasKey l k = (lookupField l k).isSome := by
  induction l with
  | nil => rfl
  | cons kv rest ih =>
      obtain ⟨k', v'⟩ := kv
      by_cases h : k' = k
      · simp [hasKey, lookupField, List.find?, h]
      · simp only [hasKey, lookupField, List.find?, List.any_cons] at ih ⊢
        simp [h, ih]

theorem listen_sse_stdout_mem (sid : Json) (evs : List SSEEvent) :
    ∀ s ∈ (listen_sse sid evs).stdout, ∃ ev, ev ∈ evs ∧ ev.data = s := by
  induction evs generalizing sid with
  | nil => intro s hs; simp [listen_sse] at hs
  | cons ev rest ih =>
      intro s hs
      by_cases hd : ev.data = ""
      · rw [listen_sse, if_pos hd] at hs
        obtain ⟨e', he', hd'⟩ := ih sid s hs
        exact ⟨e', List.mem_cons_of_mem _ he', hd'⟩
      · rw [listen_sse, if_neg hd] at hs
        cases hstep : sessionStep sid ev with
        | ok sid' =>
            rw [hstep] at hs
            rcases List.mem_cons.mp hs with h | h
            · exact ⟨ev, List.mem_cons_self _ _, h.symm⟩
            · obtain ⟨e', he', hd'⟩ := ih sid' s h
              exact ⟨e', List.mem_cons_of_mem _ he', hd'⟩
        | error e =>
            rw [hstep] at hs
            rcases List.mem_cons.mp hs with h | h
            · exact ⟨ev, List.mem_cons_self _ _, h.symm⟩
            · simp at h

theorem read_stdin_stdout_empty (sid : Json) (lines : List StdinLine) :
    (read_stdin sid lines).stdout = [] := by
  induction lines with
  | nil => rfl
  | cons line rest ih => cases line <;> simpa [read_stdin] using ih

theorem read_stdin_sent_mem (sid : Json) (lines : List StdinLine) :
    ∀ b ∈ (read_stdin sid lines).sent, ∃ m net,
      StdinLine.msg m net ∈ lines ∧ injectSession sid m = Except.ok b := by
  induction lines with
  | nil => intro b hb; simp [read_stdin] at hb
  | cons line rest ih =>
      intro b hb
      cases line with
      | malformed e =>
          rw [read_stdin] at hb
          obtain ⟨m, net, hmem, hinj⟩ := ih b hb
          exact ⟨m, net, List.mem_cons_of_mem _ hmem, hinj⟩
      | msg m net =>
          rw [read_stdin] at hb
          rcases List.mem_append.mp hb with h | h
          · refine ⟨m, net, List.mem_cons_self _ _, ?_⟩
            unfold send_request at h
            cases hinj : injectSession sid m with
            | error e => rw [hinj] at h; simp at h
            | ok m' =>
                rw [hinj] at h
                cases net <;> simp at h <;> exact congrArg Except.ok h.symm
          · obtain ⟨m', net', hmem, hinj⟩ := ih b h
            exact ⟨m', net', List.mem_cons_of_mem _ hmem, hinj⟩

theorem sessionStep_truthy (sid sid' : Json) (ev : SSEEvent)
    (hstep : sessionStep sid ev = Except.ok sid') (ht : truthy sid = true)
    (hv : ∀ l, ev.parsed = some (Json.obj l) →
      ∀ v, lookupField l "sessionId" = some v → truthy v = true) :
    truthy sid' = true := by
  rw [sessionStep] at hstep
  by_cases hk : ev.kind = "session"
  · rw [if_pos hk] at hstep
    cases hp : ev.parsed with
    | none => rw [hp] at hstep; cases hstep; exact ht
    | some data =>
        rw [hp] at hstep
        cases data with
        | obj l =>
            simp only [pyContains] at hstep
            cases hkey : hasKey l "sessionId" with
            | false => rw [hkey] at hstep; cases hstep; exact ht
            | true =>
                rw [hkey] at hstep
                simp only [pyGetItem] at hstep
                cases hlook : lookupField l "sessionId" with
                | none => rw [hlook] at hstep; cases hstep
                | some v =>
                    rw [hlook] at hstep
                    cases hstep
                    exact hv l hp sid' hlook
        | str s =>
            simp only [pyContains] at hstep
            cases hkey : strContains s "sessionId" with
            | false => rw [hkey] at hstep; cases hstep; exact ht
            | true => rw [hkey] at hstep; simp [pyGetItem] at hstep
        | arr l =>
            simp only [pyContains] at hstep
            cases hkey : l.any (fun j => match j with
                | Json.str s => s = "sessionId" | _ => false) with
            | false => rw [hkey] at hstep; cases hstep; exact ht
            | true => rw [hkey] at hstep; simp [pyGetItem] at hstep
        | null => simp [pyContains] at hstep
        | bool b => simp [pyContains] at hstep
        | num n => simp [pyContains] at hstep
  · rw [if_neg hk] at hstep; cases hstep; exact ht

theorem listen_sse_truthy (sid : Json) (evs : List SSEEvent)
    (ht : truthy sid = true)
    (hv : ∀ ev ∈ evs, ∀ l, ev.parsed = some (Json.obj l) →
      ∀ v, lookupField l "sessionId" = some v → truthy v = true) :
    truthy (listen_sse sid evs).sessionId = true := by
  induction evs generalizing sid with
  | nil => simpa [listen_sse] using ht
  | cons ev rest ih =>
      have hvtail : ∀ ev' ∈ rest, ∀ l, ev'.parsed = some (Json.obj l) →
          ∀ v, lookupField l "sessionId" = some v → truthy v = true :=
        fun ev' h => hv ev' (List.mem_cons_of_mem _ h)
      by_cases hd : ev.data = ""
      · rw [listen_sse, if_pos hd]; exact ih sid ht hvtail
      · rw [listen_sse, if_neg hd]
        cases hstep : sessionStep sid ev with
        | ok sid' =>
            exact ih sid'
              (sessionStep_truthy sid sid' ev hstep ht
                (hv ev (List.mem_cons_self _ _)))
              hvtail
        | error e => simpa using ht

/-! Claim theorems. -/

/-- C7: on `KeyboardInterrupt` the process exits with code 0 and emits no
diagnostic record; on any other uncaught exception it emits exactly one
structured diagnostic record and exits with code 1. -/
theorem mainEntry_exit_behaviour :
    mainEntry RunOutcome.interrupt = (0, []) ∧
    ∀ e : String, mainEntry (RunOutcome.fault e) = (1, [⟨e⟩]) :=
  ⟨rfl, fun _ => rfl⟩

/-- C5: a local input line that fails JSON parsing produces exactly one
`Invalid JSON` diagnostic record, no outbound call, and the remaining
lines are processed exactly as they would have been without it (the
loop does not terminate). -/
theorem read_stdin_malformed_recovered (sid : Json) (e : String)
    (rest : List StdinLine) :
    (read_stdin sid (StdinLine.malformed e :: rest)).stderr =
      ⟨"Invalid JSON: " ++ e⟩ :: (read_stdin sid rest).stderr ∧
    (read_stdin sid (StdinLine.malformed e :: rest)).sent =
      (read_stdin sid rest).sent := by
  constructor <;> rfl

/-- C6: an outbound call failing at the transport layer (non-2xx status,
raised by `raise_for_status`, or a connection error raised by the POST)
adds exactly one diagnostic record; the request body was handed to the
transport exactly once (no retry: it contributes one element to `sent`),
and the remaining lines are processed unchanged. -/
theorem read_stdin_failed_send_recovered (sid : Json)
    (fields : List (String × Json)) (net : NetResult) (e : String)
    (rest : List StdinLine)
    (hf : net = NetResult.httpError e ∨ net = NetResult.connError e) :
    (read_stdin sid (StdinLine.msg (Json.obj fields) net :: rest)).sent =
      (if truthy sid then Json.obj (setField fields "sessionId" sid)
        else Json.obj fields) :: (read_stdin sid rest).sent ∧
    (read_stdin sid (StdinLine.msg (Json.obj fields) net :: rest)).stderr =
      ⟨e⟩ :: (read_stdin sid rest).stderr := by
  rcases hf with rfl | rfl <;> by_cases h : truthy sid <;>
    simp [read_stdin, send_request, injectSession, pySetItem, h]

/-- C6 witness: a 500-status failure on the first line with no session id
yet. -/
theorem read_stdin_failed_send_recovered_witness :
    (read_stdin Json.null
        [StdinLine.msg (Json.obj [("id", Json.num 1)])
          (NetResult.httpError "Server error '500 Internal Server Error'")]).sent =
      (if truthy Json.null
        then Json.obj (setField [("id", Json.num 1)] "sessionId" Json.null)
        else Json.obj [("id", Json.num 1)]) :: (read_stdin Json.null []).sent ∧
    (read_stdin Json.null
        [StdinLine.msg (Json.obj [("id", Json.num 1)])
          (NetResult.httpError "Server error '500 Internal Server Error'")]).stderr =
      ⟨"Server error '500 Internal Server Error'"⟩ ::
        (read_stdin Json.null []).stderr :=
  read_stdin_failed_send_recovered Json.null [("id", Json.num 1)] _
    "Server error '500 Internal Server Error'" [] (Or.inl rfl)

/-- C1 counterexample: the remote can announce the identifier `""`; it is
then observed and stored (a Session Identifier is known), yet
`send_request` transmits the caller's object completely unchanged — no
`sessionId` field is assigned — because line 27 tests Python truthiness
of the stored value, not whether one is known. -/
theorem send_request_known_id_not_injected :
    (listen_sse initSessionId
        [⟨"session", "\x7b\"sessionId\": \"\"\x7d",
          some (Json.obj [("sessionId", Json.str "")])⟩]).sessionId =
      Json.str "" ∧
    (send_request (Json.str "") (Json.obj [("id", Json.num 1)])
        (NetResult.ok "")).sent = some (Json.obj [("id", Json.num 1)]) ∧
    hasKey [("id", Json.num 1)] "sessionId" = false :=
  ⟨rfl, rfl, rfl⟩

/-- C1 amended: if the stored session value is truthy (in particular a
non-empty string), `send_request` assigns it into the object's
`sessionId` field — overwriting any caller-supplied value — before the
body is handed to the transport; if the stored value is falsy (never
observed, or an announced falsy value such as `""` or `null`), the
object is transmitted unchanged, so it carries a `sessionId` field iff
the caller supplied one. -/
theorem send_request_injects_iff_truthy (sid : Json)
    (fields : List (String × Json)) (net : NetResult) :
    (truthy sid = true →
      (send_request sid (Json.obj fields) net).sent =
        some (Json.obj (setField fields "sessionId" sid)) ∧
      lookupField (setField fields "sessionId" sid) "sessionId" = some sid) ∧
    (truthy sid = false →
      (send_request sid (Json.obj fields) net).sent =
        some (Json.obj fields)) := by
  constructor
  · intro h
    refine ⟨?_, lookupField_setField fields "sessionId" sid⟩
    cases net <;> simp [send_request, injectSession, pySetItem, h]
  · intro h
    cases net <;> simp [send_request, injectSession, h]

/-- C2 counterexample: a session-announcement whose payload `5` is valid
JSON but not an object makes `"sessionId" in data` raise `TypeError`,
which the inner handler (catching only `json.JSONDecodeError`) does not
catch: the listener emits an `SSE connection error` diagnostic and its
loop ends, so the following event's payload `x` is never forwarded.  The
claim's no-diagnostic / keep-processing guarantee fails (the session id
is, however, left unchanged). -/
theorem listen_sse_nonobject_session_fault :
    (listen_sse initSessionId
        [⟨"session", "5", some (Json.num 5)⟩,
         ⟨"message", "x", none⟩]).stderr =
      [⟨"SSE connection error: argument of type 'int' is not iterable"⟩] ∧
    "x" ∉ (listen_sse initSessionId
        [⟨"session", "5", some (Json.num 5)⟩,
         ⟨"message", "x", none⟩]).stdout ∧
    (listen_sse initSessionId
        [⟨"session", "5", some (Json.num 5)⟩,
         ⟨"message", "x", none⟩]).sessionId = initSessionId :=
  ⟨rfl, by decide, rfl⟩

/-- C2 amended: on a session-announcement event, a payload that parses as
a JSON object containing a `sessionId` field replaces the current
Session Identifier with that field's value, and a payload that fails to
parse as JSON, or parses as a JSON object lacking the field, is ignored
— no diagnostic, session id unchanged, and the remaining events are
processed exactly as before.  (A payload that is valid JSON but not an
object can instead raise `TypeError`, ending the listener loop with one
diagnostic, as the counterexample shows.) -/
theorem listen_sse_session_announcement (sid v : Json)
    (l : List (String × Json)) (ev : SSEEvent) (rest : List SSEEvent)
    (hk : ev.kind = "session") (hd : ev.data ≠ "") :
    (ev.parsed = some (Json.obj l) → lookupField l "sessionId" = some v →
      listen_sse sid (ev :: rest) =
        { stdout := ev.data :: (listen_sse v rest).stdout,
          stderr := (listen_sse v rest).stderr,
          sessionId := (listen_sse v rest).sessionId }) ∧
    ((ev.parsed = none ∨
        (ev.parsed = some (Json.obj l) ∧ lookupField l "sessionId" = none)) →
      listen_sse sid (ev :: rest) =
        { stdout := ev.data :: (listen_sse sid rest).stdout,
          stderr := (listen_sse sid rest).stderr,
          sessionId := (listen_sse sid rest).sessionId }) := by
  constructor
  · intro hp hl
    have hstep : sessionStep sid ev = Except.ok v := by
      rw [sessionStep, if_pos hk, hp]
      simp [pyContains, hasKey_eq_isSome, hl, pyGetItem]
    rw [listen_sse, if_neg hd, hstep]
  · intro hcase
    have hstep : sessionStep sid ev = Except.ok sid := by
      rcases hcase with hp | ⟨hp, hl⟩
      · rw [sessionStep, if_pos hk, hp]
      · rw [sessionStep, if_pos hk, hp]
        simp [pyContains, hasKey_eq_isSome, hl]
    rw [listen_sse, if_neg hd, hstep]

/-- C2 witness: the announcement `{"sessionId": "abc"}` replaces the
session id with `"abc"` and the loop continues with the remaining
events. -/
theorem listen_sse_session_announcement_witness :
    listen_sse Json.null
        [⟨"session", "\x7b\"sessionId\": \"abc\"\x7d",
          some (Json.obj [("sessionId", Json.str "abc")])⟩] =
      { stdout := "\x7b\"sessionId\": \"abc\"\x7d" ::
          (listen_sse (Json.str "abc") []).stdout,
        stderr := (listen_sse (Json.str "abc") []).stderr,
        sessionId := (listen_sse (Json.str "abc") []).sessionId } :=
  (listen_sse_session_announcement Json.null (Json.str "abc")
    [("sessionId", Json.str "abc")]
    ⟨"session", "\x7b\"sessionId\": \"abc\"\x7d",
      some (Json.obj [("sessionId", Json.str "abc")])⟩
    [] rfl (by decide)).1 rfl rfl

/-- C4: as long as no session-announcement fault ends the listener loop,
every event with a non-empty payload has exactly that payload text
printed as one line on the local output channel, in arrival order, and
events with empty payloads produce no line (the payload is printed with
`flush=True`; flushing itself has no observable counterpart in the
trace model beyond the line being present). -/
theorem listen_sse_verbatim_in_order (sid : Json) (evs : List SSEEvent)
    (h : noListenFault sid evs = true) :
    (listen_sse sid evs).stdout =
      (evs.filter (fun ev => ev.data ≠ "")).map (fun ev => ev.data) := by
  induction evs generalizing sid with
  | nil => rfl
  | cons ev rest ih =>
      rw [noListenFault] at h
      by_cases hd : ev.data = ""
      · rw [if_pos hd] at h
        rw [listen_sse, if_pos hd, List.filter_cons]
        simpa [hd] using ih sid h
      · rw [if_neg hd] at h
        rw [listen_sse, if_neg hd]
        cases hstep : sessionStep sid ev with
        | ok sid' =>
            rw [hstep] at h
            rw [List.filter_cons]
            simpa [hd] using ih sid' h
        | error e => rw [hstep] at h; exact absurd h (by simp)

/-- C4 witness: the spec's scenario — `{"ping":1}`, an empty keep-alive,
the announcement, `{"ping":2}` — appears verbatim and in order, with no
line for the empty payload. -/
theorem listen_sse_verbatim_in_order_witness :
    (listen_sse Json.null
        [⟨"message", "\x7b\"ping\":1\x7d", some (Json.obj [("ping", Json.num 1)])⟩,
         ⟨"message", "", none⟩,
         ⟨"session", "\x7b\"sessionId\":\"s-1\"\x7d",
           some (Json.obj [("sessionId", Json.str "s-1")])⟩,
         ⟨"message", "\x7b\"ping\":2\x7d", some (Json.obj [("ping", Json.num 2)])⟩]).stdout =
      ["\x7b\"ping\":1\x7d", "\x7b\"sessionId\":\"s-1\"\x7d", "\x7b\"ping\":2\x7d"] :=
  Eq.trans
    (listen_sse_verbatim_in_order Json.null
      [⟨"message", "\x7b\"ping\":1\x7d", some (Json.obj [("ping", Json.num 1)])⟩,
       ⟨"message", "", none⟩,
       ⟨"session", "\x7b\"sessionId\":\"s-1\"\x7d",
         some (Json.obj [("sessionId", Json.str "s-1")])⟩,
       ⟨"message", "\x7b\"ping\":2\x7d", some (Json.obj [("ping", Json.num 2)])⟩]
      rfl)
    rfl

/-- C8: bridge-level errors go only to the diagnostic channel: every line
on the local output channel is the verbatim payload of some inbound
event (diagnostic records are a separate trace and a separate type), the
forwarder writes nothing to the local output channel, and every body
handed to the remote transport is a caller message (possibly with the
session id injected) — never an error record. -/
theorem errors_only_to_diagnostics (sid : Json) (evs : List SSEEvent)
    (lines : List StdinLine) :
    (∀ s ∈ (listen_sse sid evs).stdout, ∃ ev, ev ∈ evs ∧ ev.data = s) ∧
    (read_stdin sid lines).stdout = [] ∧
    (∀ b ∈ (read_stdin sid lines).sent, ∃ m net,
      StdinLine.msg m net ∈ lines ∧ injectSession sid m = Except.ok b) :=
  ⟨listen_sse_stdout_mem sid evs, read_stdin_stdout_empty sid lines,
    read_stdin_sent_mem sid lines⟩

/-- C8 witness: a malformed line leaves the local output channel empty. -/
theorem errors_only_to_diagnostics_witness :
    (read_stdin Json.null [StdinLine.malformed "Expecting value"]).stdout = [] :=
  (errors_only_to_diagnostics Json.null [] [StdinLine.malformed "Expecting value"]).2.1

/-- C10: the body of a successful response is discarded — the entire
observable effect of `send_request` is independent of it — the forwarder
writes nothing to the local output channel, and every line that does
appear there is the payload of some inbound event. -/
theorem response_body_discarded (sid m : Json) (b b' : String)
    (evs : List SSEEvent) (lines : List StdinLine) :
    send_request sid m (NetResult.ok b) = send_request sid m (NetResult.ok b') ∧
    (read_stdin sid lines).stdout = [] ∧
    (∀ s ∈ (listen_sse sid evs).stdout, ∃ ev, ev ∈ evs ∧ ev.data = s) := by
  refine ⟨?_, read_stdin_stdout_empty sid lines, listen_sse_stdout_mem sid evs⟩
  unfold send_request
  cases injectSession sid m <;> rfl

/-- C10 witness: two successful calls differing only in response body have
identical effects. -/
theorem response_body_discarded_witness :
    send_request Json.null (Json.obj []) (NetResult.ok "IGNORED A") =
      send_request Json.null (Json.obj []) (NetResult.ok "IGNORED B") :=
  (response_body_discarded Json.null (Json.obj []) "IGNORED A" "IGNORED B"
    [] []).1

/-- C1 witness: with the announced identifier `"s-1"` the caller-supplied
`sessionId` is overwritten before transmission. -/
theorem send_request_injects_iff_truthy_witness :
    (send_request (Json.str "s-1")
        (Json.obj [("sessionId", Json.str "caller")]) (NetResult.ok "")).sent =
      some (Json.obj (setField [("sessionId", Json.str "caller")]
        "sessionId" (Json.str "s-1"))) ∧
    lookupField (setField [("sessionId", Json.str "caller")] "sessionId"
        (Json.str "s-1")) "sessionId" = some (Json.str "s-1") :=
  (send_request_injects_iff_truthy (Json.str "s-1")
    [("sessionId", Json.str "caller")] (NetResult.ok "")).1 rfl

/-- C9 counterexample: the Session Identifier is not monotone.  Starting
absent, the announcement `{"sessionId": "s-1"}` stores `"s-1"` and a
request is forwarded with the injected field; a later announcement
`{"sessionId": null}` stores Python `None` — the identifier is cleared
back to the absent initial value — after which the next forwarded
request carries no `sessionId` field. -/
theorem session_id_cleared_back_to_absent :
    (listen_sse initSessionId
        [⟨"session", "\x7b\"sessionId\": \"s-1\"\x7d",
          some (Json.obj [("sessionId", Json.str "s-1")])⟩]).sessionId =
      Json.str "s-1" ∧
    (send_request (Json.str "s-1") (Json.obj []) (NetResult.ok "")).sent =
      some (Json.obj [("sessionId", Json.str "s-1")]) ∧
    (listen_sse (Json.str "s-1")
        [⟨"session", "\x7b\"sessionId\": null\x7d",
          some (Json.obj [("sessionId", Json.null)])⟩]).sessionId =
      initSessionId ∧
    (send_request initSessionId (Json.obj []) (NetResult.ok "")).sent =
      some (Json.obj []) ∧
    hasKey [] "sessionId" = false :=
  ⟨rfl, rfl, rfl, rfl, rfl⟩

/-- C9 amended: the Session Identifier starts absent (`None`, falsy), and
a session announcement replaces it with whatever value the payload's
`sessionId` field holds — possibly a falsy value such as `null` or
`""`, which returns it to an uninjectable state.  Provided the current
value is truthy and every announced replacement value is truthy, it
stays truthy across any further stretch of the event stream, and every
request forwarded at such a state carries the injected `sessionId`
field. -/
theorem session_injection_persists_when_truthy (sid : Json)
    (evs : List SSEEvent) (ht : truthy sid = true)
    (hv : ∀ ev ∈ evs, ∀ l, ev.parsed = some (Json.obj l) →
      ∀ v, lookupField l "sessionId" = some v → truthy v = true) :
    truthy initSessionId = false ∧
    truthy (listen_sse sid evs).sessionId = true ∧
    ∀ fields net, (send_request (listen_sse sid evs).sessionId
        (Json.obj fields) net).sent =
      some (Json.obj (setField fields "sessionId"
        (listen_sse sid evs).sessionId)) := by
  have h1 := listen_sse_truthy sid evs ht hv
  refine ⟨rfl, h1, ?_⟩
  intro fields net
  cases net <;> simp [send_request, injectSession, pySetItem, h1]

/-- C9 witness: after a benign announcement stream the identifier stays
truthy and injection still happens. -/
theorem session_injection_persists_when_truthy_witness :
    truthy initSessionId = false ∧
    truthy (listen_sse (Json.str "s-1")
        [⟨"session", "\x7b\"sessionId\": \"s-2\"\x7d",
          some (Json.obj [("sessionId", Json.str "s-2")])⟩]).sessionId = true ∧
    ∀ fields net,
      (send_request (listen_sse (Json.str "s-1")
          [⟨"session", "\x7b\"sessionId\": \"s-2\"\x7d",
            some (Json.obj [("sessionId", Json.str "s-2")])⟩]).sessionId
        (Json.obj fields) net).sent =
      some (Json.obj (setField fields "sessionId"
        (listen_sse (Json.str "s-1")
          [⟨"session", "\x7b\"sessionId\": \"s-2\"\x7d",
            some (Json.obj [("sessionId", Json.str "s-2")])⟩]).sessionId)) :=
  session_injection_persists_when_truthy (Json.str "s-1")
    [⟨"session", "\x7b\"sessionId\": \"s-2\"\x7d",
      some (Json.obj [("sessionId", Json.str "s-2")])⟩]
    rfl
    (by
      intro ev hev l hl v hvv
      rw [List.mem_singleton] at hev
      subst hev
      simp only at hl
      cases hl
      simp [lookupField, List.find?] at hvv
      rw [← hvv]
      rfl)

end RemoteClient
